import Mathlib

/-!
# Authentication and account-lifecycle handlers

A shallow embedding of the event handlers of `src/pages/Login.jsx`,
`src/pages/Register.jsx` and `src/pages/Settings.jsx`.

Every handler is a function on a `Machine`: the React state of the component
that owns the handler, the browser's `localStorage`, and a log of the
operations the handler performed, in program order (state setter calls,
toasts, API requests, storage writes, store dispatches, navigation).
The result of an awaited API request is an argument of the handler: the whole
run of an `async` handler, up to its last statement, is one function call.

JavaScript strings are Lean strings (sequences of code points, so strings with
unpaired surrogates are left out); `.length` counts UTF-16 code units.
-/

set_option autoImplicit false

/-! ## JavaScript values -/

namespace JS

/-- Number of UTF-16 code units of one code point. -/
def utf16Units (c : Char) : Nat :=
  if c.toNat < 0x10000 then 1 else 2

/-- The `.length` of a string: its number of UTF-16 code units. -/
def length (s : String) : Nat :=
  (s.toList.map utf16Units).sum

/-- The operator `a || b` where `a` is a string or `undefined` and `b` a string:
`undefined` and the empty string are falsy. -/
def orElse (a : Option String) (b : String) : String :=
  match a with
  | none => b
  | some s => if s = "" then b else s

end JS

mutual
/-- JSON-like values: what a response body can hold (numbers and arrays are left out). -/
inductive JSValue where
  | null
  | bool (b : Bool)
  | str (s : String)
  | obj (fields : JSFields)
/-- The members of an object, in insertion order. -/
inductive JSFields where
  | nil
  | cons (key : String) (value : JSValue) (rest : JSFields)
end

namespace JSON

/-- Hexadecimal digit (lower case) of a number below 16. -/
def hexDigit (n : Nat) : Char :=
  if n < 10 then Char.ofNat (48 + n) else Char.ofNat (87 + n)

/-- Escape of one code point inside a JSON string literal (`QuoteJSONString`). -/
def escapeChar (c : Char) : List Char :=
  if c = '"' then ['\\', '"']
  else if c = '\\' then ['\\', '\\']
  else if c.toNat = 8 then ['\\', 'b']
  else if c.toNat = 9 then ['\\', 't']
  else if c.toNat = 10 then ['\\', 'n']
  else if c.toNat = 12 then ['\\', 'f']
  else if c.toNat = 13 then ['\\', 'r']
  else if c.toNat < 32 then
    ['\\', 'u', '0', '0', hexDigit (c.toNat / 16), hexDigit (c.toNat % 16)]
  else [c]

/-- A string as a JSON string literal. -/
def quote (s : String) : String :=
  String.mk ('"' :: (s.toList.flatMap escapeChar ++ ['"']))

mutual
/-- The function `JSON.stringify` on JSON-like values (no indentation). -/
def stringify : JSValue → String
  | .null => "null"
  | .bool true => "true"
  | .bool false => "false"
  | .str s => quote s
  | .obj fields => "\x7b" ++ stringifyFields fields ++ "\x7d"
/-- The members of an object, comma separated. -/
def stringifyFields : JSFields → String
  | .nil => ""
  | .cons key value .nil => quote key ++ ":" ++ stringify value
  | .cons key value (.cons k v rest) =>
    quote key ++ ":" ++ stringify value ++ "," ++ stringifyFields (.cons k v rest)
end

end JSON

/-- A rejection or exception caught by a handler. `message` is the value of
`error.response?.data?.message` when it is a string, `none` when it is
`undefined` (in particular for an exception that is not an HTTP response,
such as a `TypeError`). -/
structure JSError where
  message : Option String

/-! ## The log of operations -/

/-- The level of a notification. The pages create toasts of the kinds `success`,
`error` and `loading` (`toast.success`, `toast.error`, `toast.loading`); `info`
is the remaining level of the notifier's interface, which no handler creates. -/
inductive ToastLevel where
  | success
  | error
  | loading
  | info
  deriving DecidableEq, Repr

/-- Body of a successful `authAPI.login` response (`response.data`). -/
structure LoginPayload where
  token : String
  user : JSValue

/-- The object `response.data` of a login response. -/
def LoginPayload.toJS (p : LoginPayload) : JSValue :=
  .obj (.cons "token" (.str p.token) (.cons "user" p.user .nil))

/-- One operation performed by a handler. -/
inductive Event where
  /-- A call `e.preventDefault()`. -/
  | preventDefault
  /-- A call `setIsSubmitting(b)`. -/
  | setIsSubmitting (b : Bool)
  /-- A call `setIsDeleting(b)`. -/
  | setIsDeleting (b : Bool)
  /-- A call `setSettings(...)`. -/
  | setSettings
  /-- A call `setShowDeleteDialog(b)`. -/
  | setShowDeleteDialog (b : Bool)
  /-- A call `setConfirmText(text)`. -/
  | setConfirmText (text : String)
  /-- A call `toast.success`, `toast.error` or `toast.loading`. -/
  | toast (level : ToastLevel) (message : String)
  /-- A call `toast.dismiss(id)`. -/
  | toastDismiss
  /-- A call `console.error(label, error)`. -/
  | consoleError (label : String)
  /-- A request `authAPI.login(formData)`. -/
  | apiLogin (email password : String)
  /-- A request `authAPI.register` with name, email and password. -/
  | apiRegister (name email password : String)
  /-- A request `userAPI.delete(id)`. -/
  | apiDelete (userId : String)
  /-- A call `localStorage.setItem(key, value)`. -/
  | setItem (key value : String)
  /-- A call `dispatch(loginSuccess(data))`. -/
  | dispatchLoginSuccess (data : JSValue)
  /-- A call `dispatch(logout())`. -/
  | dispatchLogout
  /-- A call `clearAuthData()`. -/
  | clearAuthData
  /-- A call `navigate(path)`. -/
  | navigate (path : String)

namespace Event

/-- Requests sent to the remote API. -/
def isNetworkCall : Event → Bool
  | apiLogin _ _ => true
  | apiRegister _ _ _ => true
  | apiDelete _ => true
  | _ => false

/-- Operations that write the stored session (storage or store). -/
def isSessionWrite : Event → Bool
  | setItem _ _ => true
  | dispatchLoginSuccess _ => true
  | dispatchLogout => true
  | clearAuthData => true
  | _ => false

/-- Navigation requests. -/
def isNavigation : Event → Bool
  | navigate _ => true
  | _ => false

/-- State setter calls. -/
def isStateUpdate : Event → Bool
  | setIsSubmitting _ => true
  | setIsDeleting _ => true
  | setSettings => true
  | setShowDeleteDialog _ => true
  | setConfirmText _ => true
  | _ => false

/-- Toasts shown to the user. -/
def isToast : Event → Bool
  | toast _ _ => true
  | _ => false

/-- The level of a toast, `none` for the other operations. -/
def toastLevel? : Event → Option ToastLevel
  | toast level _ => some level
  | _ => none

end Event

/-! ## Machines -/

/-- The browser's `localStorage`: `getItem` as a function. -/
abbrev Storage := String → Option String

/-- The storage after `setItem(key, value)`. -/
def Storage.setItem (st : Storage) (key value : String) : Storage :=
  fun k => if k = key then some value else st k

/-- What a handler acts on besides its component's state. -/
structure World where
  localStorage : Storage
  log : List Event

/-- Append one operation to the log. -/
def World.emit (w : World) (e : Event) : World :=
  { w with log := w.log ++ [e] }

/-- The statement `localStorage.setItem(key, value)`. -/
def World.setItem (w : World) (key value : String) : World :=
  { localStorage := w.localStorage.setItem key value
    log := w.log ++ [Event.setItem key value] }

/-- A component's state together with the world. -/
structure Machine (σ : Type) where
  state : σ
  world : World

/-- Append one operation to the log of a machine. -/
def Machine.emit {σ : Type} (m : Machine σ) (e : Event) : Machine σ :=
  { m with world := m.world.emit e }

/-- The operations logged after the first `n`. -/
def World.since (w : World) (n : Nat) : List Event :=
  w.log.drop n

/-! ## Login.jsx -/

/-- The state `formData` of the login page. -/
structure LoginForm where
  email : String
  password : String
  deriving DecidableEq, Repr

/-- The state of the `Login` component. -/
structure LoginState where
  formData : LoginForm
  showPassword : Bool
  isSubmitting : Bool
  deriving DecidableEq, Repr

namespace Login

/-- The setter `setIsSubmitting`. -/
def setIsSubmitting (b : Bool) (m : Machine LoginState) : Machine LoginState :=
  { state := { m.state with isSubmitting := b }
    world := m.world.emit (.setIsSubmitting b) }

/-- The handler `handleSubmit` of `Login.jsx` up to its `await`: the local check,
`setIsSubmitting(true)` and the request `authAPI.login(formData)`. The flag
tells whether the request was sent (the handler is then suspended). -/
def handleSubmitBegin (m : Machine LoginState) : Machine LoginState × Bool :=
  let m := m.emit .preventDefault
  if m.state.formData.email = "" ∨ m.state.formData.password = "" then
    (m.emit (.toast .error "Please fill in all fields"), false)
  else
    let m := setIsSubmitting true m
    (m.emit (.apiLogin m.state.formData.email m.state.formData.password), true)

/-- The handler `handleSubmit` of `Login.jsx` from the point where the request
`authAPI.login` settles with `outcome`: the rest of the `try` block or the
`catch` block, then the `finally` block. -/
def handleSubmitSettle (outcome : Except JSError LoginPayload) (m : Machine LoginState) :
    Machine LoginState :=
  let m :=
    match outcome with
    | .ok data =>
      let m := { m with world := m.world.setItem "token" data.token }
      let m := { m with world := m.world.setItem "user" (JSON.stringify data.toJS) }
      let m := m.emit (.dispatchLoginSuccess data.toJS)
      let m := m.emit (.toast .success "Login successful!")
      m.emit (.navigate "/")
    | .error error =>
      let m := m.emit (.consoleError "Login error:")
      m.emit (.toast .error (JS.orElse error.message "Invalid credentials"))
  setIsSubmitting false m

/-- A whole run of the handler `handleSubmit` of `Login.jsx`; `outcome` is how
`authAPI.login` settles if it is requested. -/
def handleSubmit (outcome : Except JSError LoginPayload) (m : Machine LoginState) :
    Machine LoginState :=
  let r := handleSubmitBegin m
  if r.2 then handleSubmitSettle outcome r.1 else r.1

/-- The attribute `disabled={isSubmitting}` of the submit button. -/
def submitDisabled (s : LoginState) : Bool :=
  s.isSubmitting

/-- A submit attempt through the form's submit button: the form is submitted,
and `handleSubmit` runs, only when the button is not disabled. -/
def submitClick (outcome : Except JSError LoginPayload) (m : Machine LoginState) :
    Machine LoginState :=
  if submitDisabled m.state then m else handleSubmit outcome m

end Login


/-! ## Register.jsx -/

/-- The state `formData` of the registration page. -/
structure RegisterForm where
  name : String
  email : String
  password : String
  confirmPassword : String
  deriving DecidableEq, Repr

/-- The state of the `Register` component. -/
structure RegisterState where
  formData : RegisterForm
  showPassword : Bool
  showConfirmPassword : Bool
  isSubmitting : Bool
  deriving DecidableEq, Repr

namespace Register

/-- The setter `setIsSubmitting`. -/
def setIsSubmitting (b : Bool) (m : Machine RegisterState) : Machine RegisterState :=
  { state := { m.state with isSubmitting := b }
    world := m.world.emit (.setIsSubmitting b) }

/-- The handler `handleSubmit` of `Register.jsx` up to its `await`: the three
local checks, `setIsSubmitting(true)`, the loading toast and the request
`authAPI.register`. The flag tells whether the request was sent. -/
def handleSubmitBegin (m : Machine RegisterState) : Machine RegisterState × Bool :=
  let m := m.emit .preventDefault
  if m.state.formData.name = "" ∨ m.state.formData.email = "" ∨
      m.state.formData.password = "" ∨ m.state.formData.confirmPassword = "" then
    (m.emit (.toast .error "Please fill in all fields"), false)
  else if m.state.formData.password ≠ m.state.formData.confirmPassword then
    (m.emit (.toast .error "Passwords don't match"), false)
  else if JS.length m.state.formData.password < 6 then
    (m.emit (.toast .error "Password must be at least 6 characters"), false)
  else
    let m := setIsSubmitting true m
    let m := m.emit (.toast .loading "Creating your account...")
    (m.emit (.apiRegister m.state.formData.name m.state.formData.email
      m.state.formData.password), true)

/-- The handler `handleSubmit` of `Register.jsx` from the point where the request
`authAPI.register` settles with `outcome` (the response body is not read). -/
def handleSubmitSettle (outcome : Except JSError JSValue) (m : Machine RegisterState) :
    Machine RegisterState :=
  let m :=
    match outcome with
    | .ok _ =>
      let m := m.emit .toastDismiss
      let m := m.emit (.toast .success "Registration successful! Please login.")
      m.emit (.navigate "/login")
    | .error error =>
      let m := m.emit (.consoleError "Registration error:")
      let m := m.emit .toastDismiss
      m.emit (.toast .error (JS.orElse error.message "Registration failed"))
  setIsSubmitting false m

/-- A whole run of the handler `handleSubmit` of `Register.jsx`; `outcome` is how
`authAPI.register` settles if it is requested. -/
def handleSubmit (outcome : Except JSError JSValue) (m : Machine RegisterState) :
    Machine RegisterState :=
  let r := handleSubmitBegin m
  if r.2 then handleSubmitSettle outcome r.1 else r.1

end Register

/-! ## Settings.jsx -/

/-- The state `settings` of the settings page. -/
structure PreferenceSet where
  emailNotifications : Bool
  pushNotifications : Bool
  taskReminders : Bool
  weeklyDigest : Bool
  deriving DecidableEq, Repr

/-- The keys `handleToggle` is called with (the `key` of the four rendered items). -/
inductive PreferenceKey where
  | emailNotifications
  | pushNotifications
  | taskReminders
  | weeklyDigest
  deriving DecidableEq, Repr

/-- The property read `prev[key]`. -/
def PreferenceSet.get (p : PreferenceSet) : PreferenceKey → Bool
  | .emailNotifications => p.emailNotifications
  | .pushNotifications => p.pushNotifications
  | .taskReminders => p.taskReminders
  | .weeklyDigest => p.weeklyDigest

/-- The object `{ ...prev, [key]: value }`. -/
def PreferenceSet.set (p : PreferenceSet) (key : PreferenceKey) (value : Bool) : PreferenceSet :=
  match key with
  | .emailNotifications => { p with emailNotifications := value }
  | .pushNotifications => { p with pushNotifications := value }
  | .taskReminders => { p with taskReminders := value }
  | .weeklyDigest => { p with weeklyDigest := value }

/-- The state of a mounted `DeleteAccountDialog`. -/
structure DialogState where
  confirmText : String
  isDeleting : Bool
  deriving DecidableEq, Repr

/-- The state a `DeleteAccountDialog` is mounted with: `useState("")`, `useState(false)`. -/
def DialogState.initial : DialogState :=
  { confirmText := "", isDeleting := false }

/-- The state of the `Settings` component and of the dialog it renders. The
dialog is rendered as `showDeleteDialog && <DeleteAccountDialog ... />`, so its
state exists exactly while `showDeleteDialog` is true: `dialog` is `none` when
`showDeleteDialog` is false. -/
structure SettingsState where
  settings : PreferenceSet
  dialog : Option DialogState
  deriving DecidableEq, Repr

/-- The state `showDeleteDialog`. -/
def SettingsState.showDeleteDialog (s : SettingsState) : Bool :=
  s.dialog.isSome

/-- The state `settings` is initialised with. -/
def PreferenceSet.initial : PreferenceSet :=
  { emailNotifications := true, pushNotifications := false,
    taskReminders := true, weeklyDigest := false }

/-- The signed-in user `state.auth?.user` as far as the page reads it. -/
structure User where
  _id : String
  deriving DecidableEq, Repr

/-- How an `async` function called on a world ends: fulfilled or rejected. -/
abbrev Async := World → Except JSError Unit × World

/-- The statement `try { body } catch (error) { handler }`. -/
def JS.tryCatch (body : Async) (handler : JSError → Async) : Async :=
  fun w =>
    match body w with
    | (.ok v, w1) => (.ok v, w1)
    | (.error error, w1) => handler error w1

namespace Settings

/-- The handler `handleToggle`. -/
def handleToggle (key : PreferenceKey) (m : Machine SettingsState) : Machine SettingsState :=
  let m : Machine SettingsState :=
    { state := { m.state with
        settings := m.state.settings.set key (!m.state.settings.get key) }
      world := m.world.emit .setSettings }
  m.emit (.toast .success "Settings updated")

/-- The handler `handleDeleteAccount`. `user` is `state.auth?.user` (`none` when
`undefined`: reading `user._id` then throws inside the `try`), `clearAuthData`
is what the helper of `utils/authHelper` does to the storage, and `outcome` is
how `userAPI.delete` settles. -/
def handleDeleteAccount (user : Option User) (clearAuthData : Storage → Storage)
    (outcome : Except JSError Unit) : Async :=
  JS.tryCatch
    (fun w =>
      match user with
      | none => (.error { message := none }, w)
      | some u =>
        let w := w.emit (.apiDelete u._id)
        match outcome with
        | .error error => (.error error, w)
        | .ok _ =>
          let w := w.emit (.toast .success "Account deleted successfully")
          let w : World :=
            { localStorage := clearAuthData w.localStorage
              log := w.log ++ [Event.clearAuthData] }
          let w := w.emit .dispatchLogout
          let w := w.emit (.navigate "/login")
          (.ok (), w))
    (fun error w =>
      let w := w.emit (.consoleError "Failed to delete account:")
      let w := w.emit (.toast .error (JS.orElse error.message "Failed to delete account"))
      (.ok (), w))

/-- The setter `setShowDeleteDialog`: the dialog is mounted with its initial
state when the flag becomes true and unmounted when it becomes false. -/
def setShowDeleteDialog (b : Bool) (m : Machine SettingsState) : Machine SettingsState :=
  { state := { m.state with
      dialog := if b then some (m.state.dialog.getD DialogState.initial) else none }
    world := m.world.emit (.setShowDeleteDialog b) }

end Settings

namespace DeleteAccountDialog

/-- The setter `setIsDeleting`. -/
def setIsDeleting (b : Bool) (m : Machine DialogState) : Machine DialogState :=
  { state := { m.state with isDeleting := b }
    world := m.world.emit (.setIsDeleting b) }

/-- The handler `handleDelete`; `onConfirm` is the prop of that name. -/
def handleDelete (onConfirm : Async) (m : Machine DialogState) : Machine DialogState :=
  if m.state.confirmText ≠ "DELETE" then
    m.emit (.toast .error "Please type \"DELETE\" to confirm")
  else
    let m := setIsDeleting true m
    match onConfirm m.world with
    | (.ok _, w) => { m with world := w }
    | (.error _, w) => setIsDeleting false { m with world := w }

/-- The attribute `disabled` of the "Delete Account" button of the dialog. -/
def deleteDisabled (s : DialogState) : Bool :=
  s.isDeleting || s.confirmText != "DELETE"

/-- The attribute `disabled={isDeleting}` of the "Cancel" button. -/
def cancelDisabled (s : DialogState) : Bool :=
  s.isDeleting

/-- A click on the "Delete Account" button of the dialog: `handleDelete` runs
only when the button is not disabled. -/
def deleteClick (onConfirm : Async) (m : Machine DialogState) : Machine DialogState :=
  if deleteDisabled m.state then m else handleDelete onConfirm m

end DeleteAccountDialog

namespace Settings

/-- Run a handler of the mounted dialog inside the page; nothing happens when
no dialog is mounted. -/
def inDialog (f : Machine DialogState → Machine DialogState) (m : Machine SettingsState) :
    Machine SettingsState :=
  match m.state.dialog with
  | none => m
  | some d =>
    let r := f { state := d, world := m.world }
    { state := { m.state with dialog := some r.state }, world := r.world }

/-- The handler `handleDelete` of the dialog rendered by the page, that is with
`onConfirm={handleDeleteAccount}`. -/
def confirmDelete (user : Option User) (clearAuthData : Storage → Storage)
    (outcome : Except JSError Unit) : Machine SettingsState → Machine SettingsState :=
  inDialog (DeleteAccountDialog.handleDelete (handleDeleteAccount user clearAuthData outcome))

/-- A click on the "Delete Account" button of the dialog rendered by the page. -/
def confirmClick (user : Option User) (clearAuthData : Storage → Storage)
    (outcome : Except JSError Unit) : Machine SettingsState → Machine SettingsState :=
  inDialog (DeleteAccountDialog.deleteClick (handleDeleteAccount user clearAuthData outcome))

/-- A click on the "Delete Account" button of the danger zone:
`setShowDeleteDialog(true)`. -/
def openClick (m : Machine SettingsState) : Machine SettingsState :=
  setShowDeleteDialog true m

/-- The prop `onCancel` the page passes to the dialog: `setShowDeleteDialog(false)`. -/
def onCancel (m : Machine SettingsState) : Machine SettingsState :=
  setShowDeleteDialog false m

/-- A click on the "Cancel" button of the dialog rendered by the page: `onCancel`
runs only when a dialog is mounted and its button is not disabled. -/
def cancelClick (m : Machine SettingsState) : Machine SettingsState :=
  match m.state.dialog with
  | none => m
  | some d => if DeleteAccountDialog.cancelDisabled d then m else onCancel m

end Settings

/-! ## Concrete inputs -/

namespace Scenario

/-- An empty storage and an empty log. -/
def world : World :=
  { localStorage := fun _ => none, log := [] }

/-- The login page with the given credentials typed in. -/
def login (email password : String) (isSubmitting : Bool) : Machine LoginState :=
  { state :=
      { formData := { email := email, password := password }
        showPassword := false
        isSubmitting := isSubmitting }
    world := world }

/-- The login response body with token `t1` and a user with id `u1`. -/
def payload : LoginPayload :=
  { token := "t1", user := .obj (.cons "id" (.str "u1") .nil) }

/-- The registration page with the given form typed in. -/
def register (name email password confirmPassword : String) : Machine RegisterState :=
  { state :=
      { formData :=
          { name := name, email := email, password := password
            confirmPassword := confirmPassword }
        showPassword := false
        showConfirmPassword := false
        isSubmitting := false }
    world := world }

/-- A signed-in user. -/
def user : User :=
  { _id := "u1" }

/-- A mounted dialog with the given text typed in. -/
def dialog (text : String) (isDeleting : Bool) : Machine DialogState :=
  { state := { confirmText := text, isDeleting := isDeleting }, world := world }

/-- The settings page with the dialog open and the given text typed in. -/
def settings (text : String) (isDeleting : Bool) : Machine SettingsState :=
  { state :=
      { settings := PreferenceSet.initial
        dialog := some { confirmText := text, isDeleting := isDeleting } }
    world := world }

/-- The settings page with the dialog closed. -/
def settingsClosed : Machine SettingsState :=
  { state := { settings := PreferenceSet.initial, dialog := none }, world := world }

/-- A rejection carrying the message "quota exceeded". -/
def quotaExceeded : JSError :=
  { message := some "quota exceeded" }

end Scenario

/-! ## General facts -/

theorem World.since_append (w : World) (l new : List Event) (h : w.log = l ++ new) :
    w.since l.length = new := by
  simp [World.since, h]

/-- The handler `handleDeleteAccount` never rejects: its `catch` block handles
every rejection and exception of its `try` block and does not rethrow. -/
theorem Settings.handleDeleteAccount_fulfils (user : Option User)
    (clearAuthData : Storage → Storage) (outcome : Except JSError Unit) (w : World) :
    (Settings.handleDeleteAccount user clearAuthData outcome w).1 = .ok () := by
  cases user <;> cases outcome <;> rfl

/-- The `catch` block of `handleDelete` resets `isDeleting` when `onConfirm` rejects. -/
theorem DeleteAccountDialog.handleDelete_of_rejection (onConfirm : Async)
    (m : Machine DialogState) (h : m.state.confirmText = "DELETE")
    (error : JSError) (w : World)
    (hr : onConfirm (DeleteAccountDialog.setIsDeleting true m).world = (.error error, w)) :
    (DeleteAccountDialog.handleDelete onConfirm m).state =
      { confirmText := "DELETE", isDeleting := false } := by
  unfold DeleteAccountDialog.handleDelete
  rw [if_neg (by simp [h])]
  simp only [hr]
  simp [DeleteAccountDialog.setIsDeleting, h]

/-! ## The deletion flow -/

/-- C1, as the code behaves: when `userAPI.delete` fails in a run of the
delete-confirm handler started with the text "DELETE" and `isDeleting` false,
the dialog stays open with its text and the storage is unchanged, but
`isDeleting` is still true at the end of the run. -/
theorem C1_failed_delete_leaves_isDeleting_set (u : User) (clearAuthData : Storage → Storage)
    (error : JSError) (settings : PreferenceSet) (w : World) :
    (Settings.confirmDelete (some u) clearAuthData (.error error)
        { state :=
            { settings := settings
              dialog := some { confirmText := "DELETE", isDeleting := false } }
          world := w }).state.dialog
        = some { confirmText := "DELETE", isDeleting := true } ∧
    (Settings.confirmDelete (some u) clearAuthData (.error error)
        { state :=
            { settings := settings
              dialog := some { confirmText := "DELETE", isDeleting := false } }
          world := w }).world.localStorage = w.localStorage ∧
    (Settings.confirmDelete (some u) clearAuthData (.error error)
        { state :=
            { settings := settings
              dialog := some { confirmText := "DELETE", isDeleting := false } }
          world := w }).world.log =
      w.log ++ [Event.setIsDeleting true, Event.apiDelete u._id,
        Event.consoleError "Failed to delete account:",
        Event.toast .error (JS.orElse error.message "Failed to delete account")] := by
  simp [Settings.confirmDelete, Settings.inDialog, DeleteAccountDialog.handleDelete,
    DeleteAccountDialog.setIsDeleting, Settings.handleDeleteAccount, JS.tryCatch, World.emit]

/-- C2: `handleDelete` sets `isDeleting` and requests the deletion if and only if
the typed text is exactly "DELETE"; with any other text it changes no state,
requests nothing and shows the error toast asking to type "DELETE". -/
theorem C2_deletion_gate (u : User) (clearAuthData : Storage → Storage)
    (outcome : Except JSError Unit) (m : Machine DialogState) :
    ([Event.setIsDeleting true, Event.apiDelete u._id] <+:
        (DeleteAccountDialog.handleDelete
          (Settings.handleDeleteAccount (some u) clearAuthData outcome) m).world.since
          m.world.log.length
      ↔ m.state.confirmText = "DELETE") ∧
    (m.state.confirmText ≠ "DELETE" →
      (DeleteAccountDialog.handleDelete
          (Settings.handleDeleteAccount (some u) clearAuthData outcome) m).state = m.state ∧
      (DeleteAccountDialog.handleDelete
          (Settings.handleDeleteAccount (some u) clearAuthData outcome) m).world.localStorage
        = m.world.localStorage ∧
      (DeleteAccountDialog.handleDelete
          (Settings.handleDeleteAccount (some u) clearAuthData outcome) m).world.log
        = m.world.log ++ [Event.toast .error "Please type \"DELETE\" to confirm"] ∧
      ((DeleteAccountDialog.handleDelete
          (Settings.handleDeleteAccount (some u) clearAuthData outcome) m).world.since
          m.world.log.length).countP Event.isNetworkCall = 0) := by
  by_cases h : m.state.confirmText = "DELETE"
  · cases outcome <;>
      simp [DeleteAccountDialog.handleDelete, DeleteAccountDialog.setIsDeleting,
        Settings.handleDeleteAccount, JS.tryCatch, World.emit, World.since, h]
  · simp [DeleteAccountDialog.handleDelete, Machine.emit, World.emit, World.since, h,
      Event.isNetworkCall]

/-- C2 at the texts "delete", "DELETE ", "DEL" and "": the dialog state is unchanged. -/
theorem C2_deletion_gate_witness :
    (DeleteAccountDialog.handleDelete
        (Settings.handleDeleteAccount (some Scenario.user) id (.ok ()))
        (Scenario.dialog "delete" false)).state = (Scenario.dialog "delete" false).state ∧
    (DeleteAccountDialog.handleDelete
        (Settings.handleDeleteAccount (some Scenario.user) id (.ok ()))
        (Scenario.dialog "DELETE " false)).state = (Scenario.dialog "DELETE " false).state ∧
    (DeleteAccountDialog.handleDelete
        (Settings.handleDeleteAccount (some Scenario.user) id (.ok ()))
        (Scenario.dialog "DEL" false)).state = (Scenario.dialog "DEL" false).state ∧
    (DeleteAccountDialog.handleDelete
        (Settings.handleDeleteAccount (some Scenario.user) id (.ok ()))
        (Scenario.dialog "" false)).state = (Scenario.dialog "" false).state :=
  ⟨((C2_deletion_gate Scenario.user id (.ok ()) (Scenario.dialog "delete" false)).2
      (by decide)).1,
   ((C2_deletion_gate Scenario.user id (.ok ()) (Scenario.dialog "DELETE " false)).2
      (by decide)).1,
   ((C2_deletion_gate Scenario.user id (.ok ()) (Scenario.dialog "DEL" false)).2
      (by decide)).1,
   ((C2_deletion_gate Scenario.user id (.ok ()) (Scenario.dialog "" false)).2
      (by decide)).1⟩

/-- C4 as stated fails: `handleDelete` does not test `isDeleting`. Invoked with
the text "DELETE" while `isDeleting` is already true, it requests the deletion. -/
theorem C4_handleDelete_ignores_isDeleting :
    (Scenario.settings "DELETE" true).state.dialog
        = some { confirmText := "DELETE", isDeleting := true } ∧
    (Settings.confirmDelete (some Scenario.user) id (.ok ())
        (Scenario.settings "DELETE" true)).world.log.countP Event.isNetworkCall = 1 := by
  decide

/-- C4, amended: `handleDelete` requests the deletion whenever the text is
"DELETE", whatever `isDeleting` is; the guard is the "Delete Account" button,
which is disabled when `isDeleting` is true or the text is not "DELETE". A
click on it requests the deletion only if the dialog is open, the text is
"DELETE" and `isDeleting` is false, and does nothing at all when `isDeleting`
is true. -/
theorem C4_delete_button_guard (user : Option User) (clearAuthData : Storage → Storage)
    (outcome : Except JSError Unit) (m : Machine SettingsState) :
    (((Settings.confirmClick user clearAuthData outcome m).world.since
          m.world.log.length).countP Event.isNetworkCall ≠ 0 →
      m.state.showDeleteDialog = true ∧
      m.state.dialog = some { confirmText := "DELETE", isDeleting := false }) ∧
    (∀ d : DialogState, m.state.dialog = some d → d.isDeleting = true →
      Settings.confirmClick user clearAuthData outcome m = m) ∧
    (∀ (d : DialogState) (u : User), m.state.dialog = some d → user = some u →
      d.confirmText = "DELETE" →
      ((Settings.confirmDelete user clearAuthData outcome m).world.since
          m.world.log.length).countP Event.isNetworkCall = 1) := by
  refine ⟨?_, ?_, ?_⟩
  · rcases m with ⟨⟨settings, dialog⟩, w⟩
    cases dialog with
    | none => simp [Settings.confirmClick, Settings.inDialog, World.since]
    | some d =>
      rcases d with ⟨text, deleting⟩
      by_cases hd : deleting = true
      · simp [Settings.confirmClick, Settings.inDialog, World.since,
          DeleteAccountDialog.deleteClick, DeleteAccountDialog.deleteDisabled, hd]
      · by_cases ht : text = "DELETE"
        · intro _
          simp at hd
          simp [SettingsState.showDeleteDialog, hd, ht]
        · simp [Settings.confirmClick, Settings.inDialog, World.since,
            DeleteAccountDialog.deleteClick, DeleteAccountDialog.deleteDisabled, ht]
  · intro d hm hd
    rcases m with ⟨⟨settings, dialog⟩, w⟩
    simp only at hm
    subst hm
    simp [Settings.confirmClick, Settings.inDialog, DeleteAccountDialog.deleteClick,
      DeleteAccountDialog.deleteDisabled, hd]
  · intro d u hm hu ht
    rcases m with ⟨⟨settings, dialog⟩, w⟩
    simp only at hm
    subst hm hu
    cases outcome <;>
      simp [Settings.confirmDelete, Settings.inDialog, DeleteAccountDialog.handleDelete,
        DeleteAccountDialog.setIsDeleting, Settings.handleDeleteAccount, JS.tryCatch,
        World.emit, World.since, ht, Event.isNetworkCall, List.countP_cons]

/-- C4, amended, at concrete inputs: a click with `isDeleting` true changes
nothing, and a click that requests the deletion starts from the text "DELETE"
with `isDeleting` false. -/
theorem C4_delete_button_guard_witness :
    Settings.confirmClick (some Scenario.user) id (.ok ()) (Scenario.settings "DELETE" true)
      = Scenario.settings "DELETE" true ∧
    (Scenario.settings "DELETE" false).state.dialog
      = some { confirmText := "DELETE", isDeleting := false } ∧
    ((Settings.confirmDelete (some Scenario.user) id (.ok ())
        (Scenario.settings "DELETE" true)).world.since
          (Scenario.settings "DELETE" true).world.log.length).countP Event.isNetworkCall = 1 :=
  ⟨(C4_delete_button_guard (some Scenario.user) id (.ok ())
      (Scenario.settings "DELETE" true)).2.1 _ rfl rfl,
   ((C4_delete_button_guard (some Scenario.user) id (.ok ())
      (Scenario.settings "DELETE" false)).1 (by decide)).2,
   (C4_delete_button_guard (some Scenario.user) id (.ok ())
      (Scenario.settings "DELETE" true)).2.2 _ Scenario.user rfl rfl rfl⟩

/-! ## Login -/

/-- C3 as stated fails: `handleSubmit` does not test `isSubmitting`. Started
again with valid credentials in the state the first run left at its `await`
(`isSubmitting` true, one request sent), it sends a second login request and
shows no toast. -/
theorem C3_second_handleSubmit_sends_second_request :
    (Login.handleSubmitBegin (Scenario.login "a@b.com" "secret1" false)).1.state.isSubmitting
      = true ∧
    (Login.handleSubmitBegin
        (Scenario.login "a@b.com" "secret1" false)).1.world.log.countP Event.isNetworkCall
      = 1 ∧
    (Login.handleSubmitBegin
        (Login.handleSubmitBegin
          (Scenario.login "a@b.com" "secret1" false)).1).1.world.log.countP Event.isNetworkCall
      = 2 ∧
    (Login.handleSubmitBegin
        (Login.handleSubmitBegin
          (Scenario.login "a@b.com" "secret1" false)).1).1.world.log.countP Event.isToast
      = 0 := by
  decide

/-- C3, amended: while `isSubmitting` is true the submit button is disabled, so a
submit attempt through it does not run `handleSubmit`: no second login request
is sent, no toast is shown and nothing changes. The handler itself has no such
guard: with valid credentials it sets `isSubmitting` and then sends a login
request, whatever `isSubmitting` was. -/
theorem C3_submit_button_guard (outcome : Except JSError LoginPayload)
    (m : Machine LoginState) :
    (m.state.isSubmitting = true →
      Login.submitDisabled m.state = true ∧ Login.submitClick outcome m = m) ∧
    (m.state.formData.email ≠ "" → m.state.formData.password ≠ "" →
      (Login.handleSubmitBegin m).2 = true ∧
      (Login.handleSubmitBegin m).1.state = { m.state with isSubmitting := true } ∧
      (Login.handleSubmitBegin m).1.world.localStorage = m.world.localStorage ∧
      (Login.handleSubmitBegin m).1.world.log =
        m.world.log ++ [Event.preventDefault, Event.setIsSubmitting true,
          Event.apiLogin m.state.formData.email m.state.formData.password]) := by
  constructor
  · intro h
    simp [Login.submitDisabled, Login.submitClick, h]
  · intro he hp
    simp [Login.handleSubmitBegin, Login.setIsSubmitting, Machine.emit, World.emit, he, hp]

/-- C3, amended, at concrete inputs: a submit attempt while a request is pending
changes nothing, and the handler sends a request when started with
`isSubmitting` true. -/
theorem C3_submit_button_guard_witness :
    Login.submitClick (.ok Scenario.payload) (Scenario.login "a@b.com" "secret1" true)
      = Scenario.login "a@b.com" "secret1" true ∧
    (Login.handleSubmitBegin (Scenario.login "a@b.com" "secret1" true)).2 = true :=
  ⟨((C3_submit_button_guard (.ok Scenario.payload)
      (Scenario.login "a@b.com" "secret1" true)).1 rfl).2,
   ((C3_submit_button_guard (.ok Scenario.payload)
      (Scenario.login "a@b.com" "secret1" true)).2 (by decide) (by decide)).1⟩

/-- C6: with an empty email or an empty password a run of `handleSubmit` of the
login page sends no request, shows the error toast "Please fill in all fields"
and changes neither the component state nor the storage; with both fields
non-empty it sends exactly one login request. -/
theorem C6_login_local_validation (outcome : Except JSError LoginPayload)
    (m : Machine LoginState) :
    (m.state.formData.email = "" ∨ m.state.formData.password = "" →
      (Login.handleSubmit outcome m).state = m.state ∧
      (Login.handleSubmit outcome m).world.localStorage = m.world.localStorage ∧
      (Login.handleSubmit outcome m).world.log =
        m.world.log ++ [Event.preventDefault,
          Event.toast .error "Please fill in all fields"] ∧
      ((Login.handleSubmit outcome m).world.since m.world.log.length).countP
        Event.isNetworkCall = 0 ∧
      ((Login.handleSubmit outcome m).world.since m.world.log.length).countP
        Event.isSessionWrite = 0) ∧
    (m.state.formData.email ≠ "" ∧ m.state.formData.password ≠ "" →
      ((Login.handleSubmit outcome m).world.since m.world.log.length).countP
        Event.isNetworkCall = 1) := by
  constructor
  · intro h
    simp [Login.handleSubmit, Login.handleSubmitBegin, Machine.emit, World.emit,
      World.since, h, Event.isNetworkCall, Event.isSessionWrite]
  · rintro ⟨he, hp⟩
    cases outcome <;>
      simp [Login.handleSubmit, Login.handleSubmitBegin, Login.handleSubmitSettle,
        Login.setIsSubmitting, Machine.emit, World.emit, World.setItem, World.since, he, hp,
        Event.isNetworkCall, List.countP_cons]

/-- C6 at the form with an empty email and the password "x", and at the form
with email "a@b.com" and password "secret1". -/
theorem C6_login_local_validation_witness :
    (Login.handleSubmit (.ok Scenario.payload) (Scenario.login "" "x" false)).world.log =
      (Scenario.login "" "x" false).world.log ++ [Event.preventDefault,
        Event.toast .error "Please fill in all fields"] ∧
    ((Login.handleSubmit (.ok Scenario.payload)
        (Scenario.login "a@b.com" "secret1" false)).world.since
      (Scenario.login "a@b.com" "secret1" false).world.log.length).countP
        Event.isNetworkCall = 1 :=
  ⟨((C6_login_local_validation (.ok Scenario.payload) (Scenario.login "" "x" false)).1
      (Or.inl rfl)).2.2.1,
   (C6_login_local_validation (.ok Scenario.payload)
      (Scenario.login "a@b.com" "secret1" false)).2 ⟨by decide, by decide⟩⟩

/-! ## Register -/

/-- C5: `handleSubmit` of the registration page shows "Please fill in all fields"
if one of the four fields is empty, otherwise "Passwords don't match" if the
password differs from its confirmation, otherwise "Password must be at least 6
characters" if the password's length is below 6; each of these rejections
changes neither the state nor the storage and sends no request. The register
request is sent if and only if none of the three conditions holds, and it is
then sent after `setIsSubmitting(true)`. -/
theorem C5_register_local_validation (outcome : Except JSError JSValue)
    (m : Machine RegisterState) :
    ((m.state.formData.name = "" ∨ m.state.formData.email = "" ∨
        m.state.formData.password = "" ∨ m.state.formData.confirmPassword = "") →
      (Register.handleSubmit outcome m).state = m.state ∧
      (Register.handleSubmit outcome m).world.localStorage = m.world.localStorage ∧
      (Register.handleSubmit outcome m).world.log =
        m.world.log ++ [Event.preventDefault,
          Event.toast .error "Please fill in all fields"]) ∧
    (¬(m.state.formData.name = "" ∨ m.state.formData.email = "" ∨
        m.state.formData.password = "" ∨ m.state.formData.confirmPassword = "") →
      m.state.formData.password ≠ m.state.formData.confirmPassword →
      (Register.handleSubmit outcome m).state = m.state ∧
      (Register.handleSubmit outcome m).world.localStorage = m.world.localStorage ∧
      (Register.handleSubmit outcome m).world.log =
        m.world.log ++ [Event.preventDefault,
          Event.toast .error "Passwords don't match"]) ∧
    (¬(m.state.formData.name = "" ∨ m.state.formData.email = "" ∨
        m.state.formData.password = "" ∨ m.state.formData.confirmPassword = "") →
      m.state.formData.password = m.state.formData.confirmPassword →
      JS.length m.state.formData.password < 6 →
      (Register.handleSubmit outcome m).state = m.state ∧
      (Register.handleSubmit outcome m).world.localStorage = m.world.localStorage ∧
      (Register.handleSubmit outcome m).world.log =
        m.world.log ++ [Event.preventDefault,
          Event.toast .error "Password must be at least 6 characters"]) ∧
    (((Register.handleSubmit outcome m).world.since m.world.log.length).countP
        Event.isNetworkCall ≠ 0 ↔
      ¬(m.state.formData.name = "" ∨ m.state.formData.email = "" ∨
        m.state.formData.password = "" ∨ m.state.formData.confirmPassword = "") ∧
      ¬(m.state.formData.password ≠ m.state.formData.confirmPassword) ∧
      ¬(JS.length m.state.formData.password < 6)) ∧
    ((Register.handleSubmitBegin m).2 = true ↔
      ¬(m.state.formData.name = "" ∨ m.state.formData.email = "" ∨
        m.state.formData.password = "" ∨ m.state.formData.confirmPassword = "") ∧
      ¬(m.state.formData.password ≠ m.state.formData.confirmPassword) ∧
      ¬(JS.length m.state.formData.password < 6)) ∧
    ((Register.handleSubmitBegin m).2 = true →
      (Register.handleSubmitBegin m).1.state = { m.state with isSubmitting := true } ∧
      (Register.handleSubmitBegin m).1.world.log =
        m.world.log ++ [Event.preventDefault, Event.setIsSubmitting true,
          Event.toast .loading "Creating your account...",
          Event.apiRegister m.state.formData.name m.state.formData.email
            m.state.formData.password]) := by
  rcases m with ⟨⟨⟨name, email, password, confirmPassword⟩, sp, scp, sub⟩, ⟨ls, log⟩⟩
  by_cases h1 : name = "" ∨ email = "" ∨ password = "" ∨ confirmPassword = ""
  · simp [Register.handleSubmit, Register.handleSubmitBegin, Machine.emit, World.emit,
      World.since, h1, Event.isNetworkCall]
  · have h1c := h1
    simp only [not_or] at h1c
    obtain ⟨hn, he, hp, hc⟩ := h1c
    by_cases h2 : password = confirmPassword
    · subst h2
      by_cases h3 : JS.length password < 6
      · simp [Register.handleSubmit, Register.handleSubmitBegin, Machine.emit, World.emit,
          World.since, hn, he, hp, h3, Event.isNetworkCall]
      · cases outcome <;>
          simp [Register.handleSubmit, Register.handleSubmitBegin,
            Register.handleSubmitSettle, Register.setIsSubmitting, Machine.emit, World.emit,
            World.since, hn, he, hp, h3, Event.isNetworkCall, List.countP_cons]
    · simp [Register.handleSubmit, Register.handleSubmitBegin, Machine.emit, World.emit,
        World.since, hn, he, hp, hc, h2, Event.isNetworkCall]

/-- C5 at concrete forms: an empty name, the passwords "abc123" and "abc124",
the password "abc", and a form that passes the three checks. -/
theorem C5_register_local_validation_witness :
    (Register.handleSubmit (.ok .null) (Scenario.register "" "a@b.com" "abc123" "abc123")).world.log
      = (Scenario.register "" "a@b.com" "abc123" "abc123").world.log ++
        [Event.preventDefault, Event.toast .error "Please fill in all fields"] ∧
    (Register.handleSubmit (.ok .null)
        (Scenario.register "Ann" "a@b.com" "abc123" "abc124")).world.log
      = (Scenario.register "Ann" "a@b.com" "abc123" "abc124").world.log ++
        [Event.preventDefault, Event.toast .error "Passwords don't match"] ∧
    (Register.handleSubmit (.ok .null) (Scenario.register "Ann" "a@b.com" "abc" "abc")).world.log
      = (Scenario.register "Ann" "a@b.com" "abc" "abc").world.log ++
        [Event.preventDefault, Event.toast .error "Password must be at least 6 characters"] ∧
    (Register.handleSubmitBegin
        (Scenario.register "Ann" "a@b.com" "abc123" "abc123")).1.state
      = { (Scenario.register "Ann" "a@b.com" "abc123" "abc123").state with
          isSubmitting := true } :=
  ⟨((C5_register_local_validation (.ok .null)
      (Scenario.register "" "a@b.com" "abc123" "abc123")).1 (Or.inl rfl)).2.2,
   ((C5_register_local_validation (.ok .null)
      (Scenario.register "Ann" "a@b.com" "abc123" "abc124")).2.1
        (by decide) (by decide)).2.2,
   ((C5_register_local_validation (.ok .null)
      (Scenario.register "Ann" "a@b.com" "abc" "abc")).2.2.1
        (by decide) rfl (by decide)).2.2,
   ((C5_register_local_validation (.ok .null)
      (Scenario.register "Ann" "a@b.com" "abc123" "abc123")).2.2.2.2.2 (by decide)).1⟩

/-- C9: for a form that passes the local checks, a run of `handleSubmit` of the
registration page writes nothing to the stored session, whether the request
succeeds or fails; on success it requests navigation to "/login" and nothing
else, on failure it requests no navigation; in both cases `isSubmitting` is
false at the end and nothing else of the state changes. -/
theorem C9_register_writes_no_session (outcome : Except JSError JSValue)
    (m : Machine RegisterState)
    (hname : m.state.formData.name ≠ "") (hemail : m.state.formData.email ≠ "")
    (hpassword : m.state.formData.password ≠ "")
    (hconfirm : m.state.formData.confirmPassword = m.state.formData.password)
    (hlength : 6 ≤ JS.length m.state.formData.password) :
    (Register.handleSubmit outcome m).world.localStorage = m.world.localStorage ∧
    ((Register.handleSubmit outcome m).world.since m.world.log.length).countP
      Event.isSessionWrite = 0 ∧
    ((Register.handleSubmit outcome m).world.since m.world.log.length).countP
      Event.isNetworkCall = 1 ∧
    (Register.handleSubmit outcome m).state = { m.state with isSubmitting := false } ∧
    (∀ body : JSValue, outcome = .ok body →
      ((Register.handleSubmit outcome m).world.since m.world.log.length).filter
        Event.isNavigation = [Event.navigate "/login"]) ∧
    (∀ error : JSError, outcome = .error error →
      ((Register.handleSubmit outcome m).world.since m.world.log.length).filter
        Event.isNavigation = []) := by
  rcases m with ⟨⟨⟨name, email, password, confirmPassword⟩, sp, scp, sub⟩, ⟨ls, log⟩⟩
  simp only at hname hemail hpassword hconfirm hlength
  have h3 := Nat.not_lt.mpr hlength
  subst hconfirm
  cases outcome <;>
    simp [Register.handleSubmit, Register.handleSubmitBegin, Register.handleSubmitSettle,
      Register.setIsSubmitting, Machine.emit, World.emit, World.since, hname, hemail,
      hpassword, h3, Event.isNetworkCall, Event.isSessionWrite, Event.isNavigation,
      List.countP_cons, List.filter_cons]

/-- C9 at the form Ann, a@b.com, abc123, abc123 with a request that succeeds and
with one that fails. -/
theorem C9_register_writes_no_session_witness :
    ((Register.handleSubmit (.ok .null)
        (Scenario.register "Ann" "a@b.com" "abc123" "abc123")).world.since
      (Scenario.register "Ann" "a@b.com" "abc123" "abc123").world.log.length).filter
        Event.isNavigation = [Event.navigate "/login"] ∧
    ((Register.handleSubmit (.error Scenario.quotaExceeded)
        (Scenario.register "Ann" "a@b.com" "abc123" "abc123")).world.since
      (Scenario.register "Ann" "a@b.com" "abc123" "abc123").world.log.length).filter
        Event.isNavigation = [] :=
  ⟨(C9_register_writes_no_session (.ok .null)
      (Scenario.register "Ann" "a@b.com" "abc123" "abc123")
      (by decide) (by decide) (by decide) rfl (by decide)).2.2.2.2.1 .null rfl,
   (C9_register_writes_no_session (.error Scenario.quotaExceeded)
      (Scenario.register "Ann" "a@b.com" "abc123" "abc123")
      (by decide) (by decide) (by decide) rfl (by decide)).2.2.2.2.2
        Scenario.quotaExceeded rfl⟩

/-! ## Login: the outcome of the request -/

/-- C7 as stated fails: after a successful login with the payload with token "t1"
and user `{id: "u1"}`, the entry `user` of the storage is the serialised whole
payload, not the serialised user profile. -/
theorem C7_user_entry_holds_whole_payload :
    (Login.handleSubmit (.ok Scenario.payload)
        (Scenario.login "a@b.com" "secret1" false)).world.localStorage "user"
      = some "\x7b\"token\":\"t1\",\"user\":\x7b\"id\":\"u1\"\x7d\x7d" ∧
    JSON.stringify Scenario.payload.user = "\x7b\"id\":\"u1\"\x7d" ∧
    (Login.handleSubmit (.ok Scenario.payload)
        (Scenario.login "a@b.com" "secret1" false)).world.localStorage "user"
      ≠ some (JSON.stringify Scenario.payload.user) := by
  decide

/-- C7, amended: after a valid login whose request succeeds with a payload of
token `t` and user `u`, the entry `token` of the storage holds `t` and the entry
`user` holds the serialisation of the whole payload (token and user); both
entries are written, `loginSuccess` is dispatched with the payload, one success
toast is shown, navigation to "/" is requested and `isSubmitting` is false at
the end. -/
theorem C7_login_success_stores_payload (p : LoginPayload) (m : Machine LoginState)
    (hemail : m.state.formData.email ≠ "") (hpassword : m.state.formData.password ≠ "") :
    (Login.handleSubmit (.ok p) m).world.localStorage =
      (m.world.localStorage.setItem "token" p.token).setItem "user"
        (JSON.stringify p.toJS) ∧
    (Login.handleSubmit (.ok p) m).world.localStorage "token" = some p.token ∧
    (Login.handleSubmit (.ok p) m).world.localStorage "user"
      = some (JSON.stringify p.toJS) ∧
    (Login.handleSubmit (.ok p) m).world.log =
      m.world.log ++ [Event.preventDefault, Event.setIsSubmitting true,
        Event.apiLogin m.state.formData.email m.state.formData.password,
        Event.setItem "token" p.token,
        Event.setItem "user" (JSON.stringify p.toJS),
        Event.dispatchLoginSuccess p.toJS,
        Event.toast .success "Login successful!",
        Event.navigate "/",
        Event.setIsSubmitting false] ∧
    (Login.handleSubmit (.ok p) m).state = { m.state with isSubmitting := false } := by
  simp [Login.handleSubmit, Login.handleSubmitBegin, Login.handleSubmitSettle,
    Login.setIsSubmitting, Machine.emit, World.emit, World.setItem, Storage.setItem,
    hemail, hpassword]

/-- C7, amended, at the credentials a@b.com, secret1 and the payload with token
"t1" and user `{id: "u1"}`. -/
theorem C7_login_success_stores_payload_witness :
    (Login.handleSubmit (.ok Scenario.payload)
        (Scenario.login "a@b.com" "secret1" false)).world.localStorage "token" = some "t1" ∧
    (Login.handleSubmit (.ok Scenario.payload)
        (Scenario.login "a@b.com" "secret1" false)).world.localStorage "user"
      = some (JSON.stringify Scenario.payload.toJS) ∧
    (Login.handleSubmit (.ok Scenario.payload)
        (Scenario.login "a@b.com" "secret1" false)).state.isSubmitting = false :=
  ⟨(C7_login_success_stores_payload Scenario.payload
      (Scenario.login "a@b.com" "secret1" false) (by decide) (by decide)).2.1,
   (C7_login_success_stores_payload Scenario.payload
      (Scenario.login "a@b.com" "secret1" false) (by decide) (by decide)).2.2.1,
   congrArg LoginState.isSubmitting
    (C7_login_success_stores_payload Scenario.payload
      (Scenario.login "a@b.com" "secret1" false) (by decide) (by decide)).2.2.2.2⟩

/-- C8: after a valid login whose request fails, the storage is unchanged (so the
entries `token` and `user` are absent if they were absent), nothing is written
to the stored session, no navigation is requested, one error toast is shown
whose message is the message of the failure when it has a non-empty one and
"Invalid credentials" when it has none (or an empty one), and `isSubmitting` is
false at the end. -/
theorem C8_login_failure_writes_nothing (error : JSError) (m : Machine LoginState)
    (hemail : m.state.formData.email ≠ "") (hpassword : m.state.formData.password ≠ "") :
    (Login.handleSubmit (.error error) m).world.localStorage = m.world.localStorage ∧
    (m.world.localStorage "token" = none → m.world.localStorage "user" = none →
      (Login.handleSubmit (.error error) m).world.localStorage "token" = none ∧
      (Login.handleSubmit (.error error) m).world.localStorage "user" = none) ∧
    (Login.handleSubmit (.error error) m).world.log =
      m.world.log ++ [Event.preventDefault, Event.setIsSubmitting true,
        Event.apiLogin m.state.formData.email m.state.formData.password,
        Event.consoleError "Login error:",
        Event.toast .error (JS.orElse error.message "Invalid credentials"),
        Event.setIsSubmitting false] ∧
    ((Login.handleSubmit (.error error) m).world.since m.world.log.length).countP
      Event.isSessionWrite = 0 ∧
    ((Login.handleSubmit (.error error) m).world.since m.world.log.length).countP
      Event.isNavigation = 0 ∧
    (Login.handleSubmit (.error error) m).state = { m.state with isSubmitting := false } ∧
    (∀ message : String, error.message = some message → message ≠ "" →
      JS.orElse error.message "Invalid credentials" = message) ∧
    (error.message = none ∨ error.message = some "" →
      JS.orElse error.message "Invalid credentials" = "Invalid credentials") := by
  have hlog : (Login.handleSubmit (.error error) m).world.log =
      m.world.log ++ [Event.preventDefault, Event.setIsSubmitting true,
        Event.apiLogin m.state.formData.email m.state.formData.password,
        Event.consoleError "Login error:",
        Event.toast .error (JS.orElse error.message "Invalid credentials"),
        Event.setIsSubmitting false] := by
    simp [Login.handleSubmit, Login.handleSubmitBegin, Login.handleSubmitSettle,
      Login.setIsSubmitting, Machine.emit, World.emit, hemail, hpassword]
  have hst : (Login.handleSubmit (.error error) m).world.localStorage
      = m.world.localStorage := by
    simp [Login.handleSubmit, Login.handleSubmitBegin, Login.handleSubmitSettle,
      Login.setIsSubmitting, Machine.emit, World.emit, hemail, hpassword]
  refine ⟨hst, ?_, hlog, ?_, ?_, ?_, ?_, ?_⟩
  · intro ht hu
    rw [hst]
    exact ⟨ht, hu⟩
  · rw [World.since_append _ _ _ hlog]
    simp [Event.isSessionWrite, List.countP_cons]
  · rw [World.since_append _ _ _ hlog]
    simp [Event.isNavigation, List.countP_cons]
  · simp [Login.handleSubmit, Login.handleSubmitBegin, Login.handleSubmitSettle,
      Login.setIsSubmitting, Machine.emit, World.emit, hemail, hpassword]
  · intro message hm hne
    simp [JS.orElse, hm, hne]
  · rintro (hm | hm) <;> simp [JS.orElse, hm]

/-- C8 at the credentials a@b.com, secret1, with a failure carrying the message
"quota exceeded" and with a failure carrying none. -/
theorem C8_login_failure_writes_nothing_witness :
    (Login.handleSubmit (.error Scenario.quotaExceeded)
        (Scenario.login "a@b.com" "secret1" false)).world.log =
      (Scenario.login "a@b.com" "secret1" false).world.log ++
        [Event.preventDefault, Event.setIsSubmitting true,
          Event.apiLogin "a@b.com" "secret1",
          Event.consoleError "Login error:",
          Event.toast .error (JS.orElse Scenario.quotaExceeded.message "Invalid credentials"),
          Event.setIsSubmitting false] ∧
    JS.orElse Scenario.quotaExceeded.message "Invalid credentials" = "quota exceeded" ∧
    JS.orElse (JSError.mk none).message "Invalid credentials" = "Invalid credentials" ∧
    (Login.handleSubmit (.error Scenario.quotaExceeded)
        (Scenario.login "a@b.com" "secret1" false)).world.localStorage "token" = none :=
  ⟨(C8_login_failure_writes_nothing Scenario.quotaExceeded
      (Scenario.login "a@b.com" "secret1" false) (by decide) (by decide)).2.2.1,
   (C8_login_failure_writes_nothing Scenario.quotaExceeded
      (Scenario.login "a@b.com" "secret1" false) (by decide) (by decide)).2.2.2.2.2.2.1
        "quota exceeded" rfl (by decide),
   (C8_login_failure_writes_nothing (JSError.mk none)
      (Scenario.login "a@b.com" "secret1" false) (by decide) (by decide)).2.2.2.2.2.2.2
        (Or.inl rfl),
   ((C8_login_failure_writes_nothing Scenario.quotaExceeded
      (Scenario.login "a@b.com" "secret1" false) (by decide) (by decide)).2.1 rfl rfl).1⟩

/-! ## Preferences -/

/-- C10 as stated fails: the toast of `handleToggle` has level success; the
handler shows no toast of level info. -/
theorem C10_toggle_toast_level_is_success :
    (Settings.handleToggle .emailNotifications Scenario.settingsClosed).world.log.filterMap
        Event.toastLevel? = [ToastLevel.success] ∧
    ToastLevel.info ∉
      (Settings.handleToggle .emailNotifications Scenario.settingsClosed).world.log.filterMap
        Event.toastLevel? := by
  decide

/-- C10, amended: `handleToggle(k)` negates the value at `k`, keeps the value at
every other key, leaves the dialog and the storage as they are, sends no
request and shows one toast, of level success, with the message "Settings
updated". -/
theorem C10_toggle_frame (k : PreferenceKey) (m : Machine SettingsState) :
    (Settings.handleToggle k m).state.settings.get k = !m.state.settings.get k ∧
    (∀ j : PreferenceKey, j ≠ k →
      (Settings.handleToggle k m).state.settings.get j = m.state.settings.get j) ∧
    (Settings.handleToggle k m).state.dialog = m.state.dialog ∧
    (Settings.handleToggle k m).world.localStorage = m.world.localStorage ∧
    (Settings.handleToggle k m).world.log =
      m.world.log ++ [Event.setSettings, Event.toast .success "Settings updated"] ∧
    ((Settings.handleToggle k m).world.since m.world.log.length).countP
      Event.isNetworkCall = 0 := by
  refine ⟨?_, ?_, ?_, ?_, ?_, ?_⟩
  · cases k <;> simp [Settings.handleToggle, Machine.emit, PreferenceSet.get, PreferenceSet.set]
  · intro j hj
    cases k <;> cases j <;>
      simp_all [Settings.handleToggle, Machine.emit, PreferenceSet.get, PreferenceSet.set]
  · simp [Settings.handleToggle, Machine.emit]
  · simp [Settings.handleToggle, Machine.emit, World.emit]
  · simp [Settings.handleToggle, Machine.emit, World.emit]
  · simp [Settings.handleToggle, Machine.emit, World.emit, World.since, Event.isNetworkCall]

/-- C10, amended, at the initial preferences: toggling `pushNotifications` turns
it on and keeps `emailNotifications`. -/
theorem C10_toggle_frame_witness :
    (Settings.handleToggle .pushNotifications
        Scenario.settingsClosed).state.settings.get .pushNotifications = true ∧
    (Settings.handleToggle .pushNotifications
        Scenario.settingsClosed).state.settings.get .emailNotifications = true :=
  ⟨(C10_toggle_frame .pushNotifications Scenario.settingsClosed).1,
   (C10_toggle_frame .pushNotifications Scenario.settingsClosed).2.1
      .emailNotifications (by decide)⟩

/-! ## Notifications -/

/-- C11 as stated fails: a run of `handleSubmit` of the registration page that
sends the request shows two toasts, the loading toast and then the success
toast. -/
theorem C11_register_run_shows_two_toasts :
    (Register.handleSubmit (.ok .null)
        (Scenario.register "Ann" "a@b.com" "abc123" "abc123")).world.log.countP
      Event.isToast = 2 ∧
    (Register.handleSubmit (.ok .null)
        (Scenario.register "Ann" "a@b.com" "abc123" "abc123")).world.log.filterMap
      Event.toastLevel? = [ToastLevel.loading, ToastLevel.success] := by
  decide

/-- C11, amended: every run of `handleSubmit` of the login page and every run of
`handleDelete` with `onConfirm = handleDeleteAccount` shows exactly one toast,
whatever the outcome. A run of `handleSubmit` of the registration page shows
exactly one toast when a local check rejects the form; when the request is
sent it shows the loading toast first, dismisses it once the request settles,
and then shows exactly one success or error toast: two toasts in all. -/
theorem C11_toasts_per_run (loginOutcome : Except JSError LoginPayload)
    (ml : Machine LoginState) (user : Option User) (clearAuthData : Storage → Storage)
    (deleteOutcome : Except JSError Unit) (md : Machine DialogState)
    (registerOutcome : Except JSError JSValue) (mr : Machine RegisterState) :
    ((Login.handleSubmit loginOutcome ml).world.since ml.world.log.length).countP
      Event.isToast = 1 ∧
    ((DeleteAccountDialog.handleDelete
        (Settings.handleDeleteAccount user clearAuthData deleteOutcome) md).world.since
      md.world.log.length).countP Event.isToast = 1 ∧
    ((Register.handleSubmitBegin mr).2 = false →
      ((Register.handleSubmit registerOutcome mr).world.since mr.world.log.length).countP
        Event.isToast = 1) ∧
    ((Register.handleSubmitBegin mr).2 = true →
      ((Register.handleSubmit registerOutcome mr).world.since mr.world.log.length).countP
        Event.isToast = 2 ∧
      (∀ body : JSValue, registerOutcome = .ok body →
        (Register.handleSubmit registerOutcome mr).world.log =
          mr.world.log ++ [Event.preventDefault, Event.setIsSubmitting true,
            Event.toast .loading "Creating your account...",
            Event.apiRegister mr.state.formData.name mr.state.formData.email
              mr.state.formData.password,
            Event.toastDismiss,
            Event.toast .success "Registration successful! Please login.",
            Event.navigate "/login",
            Event.setIsSubmitting false]) ∧
      (∀ error : JSError, registerOutcome = .error error →
        (Register.handleSubmit registerOutcome mr).world.log =
          mr.world.log ++ [Event.preventDefault, Event.setIsSubmitting true,
            Event.toast .loading "Creating your account...",
            Event.apiRegister mr.state.formData.name mr.state.formData.email
              mr.state.formData.password,
            Event.consoleError "Registration error:",
            Event.toastDismiss,
            Event.toast .error (JS.orElse error.message "Registration failed"),
            Event.setIsSubmitting false])) := by
  refine ⟨?_, ?_, ?_, ?_⟩
  · by_cases h : ml.state.formData.email = "" ∨ ml.state.formData.password = ""
    · simp [Login.handleSubmit, Login.handleSubmitBegin, Machine.emit, World.emit,
        World.since, h, Event.isToast]
    · have hc := h
      simp only [not_or] at hc
      cases loginOutcome <;>
        simp [Login.handleSubmit, Login.handleSubmitBegin, Login.handleSubmitSettle,
          Login.setIsSubmitting, Machine.emit, World.emit, World.setItem, World.since,
          hc.1, hc.2, Event.isToast, List.countP_cons]
  · by_cases h : md.state.confirmText = "DELETE"
    · cases user <;> cases deleteOutcome <;>
        simp [DeleteAccountDialog.handleDelete, DeleteAccountDialog.setIsDeleting,
          Settings.handleDeleteAccount, JS.tryCatch, World.emit, World.since, h,
          Event.isToast, List.countP_cons]
    · simp [DeleteAccountDialog.handleDelete, Machine.emit, World.emit, World.since, h,
        Event.isToast]
  · rcases mr with ⟨⟨⟨name, email, password, confirmPassword⟩, sp, scp, sub⟩, ⟨ls, log⟩⟩
    by_cases h1 : name = "" ∨ email = "" ∨ password = "" ∨ confirmPassword = ""
    · simp [Register.handleSubmit, Register.handleSubmitBegin, Machine.emit, World.emit,
        World.since, h1, Event.isToast]
    · have h1c := h1
      simp only [not_or] at h1c
      obtain ⟨hn, he, hp, hc⟩ := h1c
      by_cases h2 : password = confirmPassword
      · subst h2
        by_cases h3 : JS.length password < 6
        · simp [Register.handleSubmit, Register.handleSubmitBegin, Machine.emit, World.emit,
            World.since, hn, he, hp, h3, Event.isToast]
        · simp [Register.handleSubmitBegin, Register.setIsSubmitting, Machine.emit, World.emit,
            hn, he, hp, h3]
      · simp [Register.handleSubmit, Register.handleSubmitBegin, Machine.emit, World.emit,
          World.since, hn, he, hp, hc, h2, Event.isToast]
  · rcases mr with ⟨⟨⟨name, email, password, confirmPassword⟩, sp, scp, sub⟩, ⟨ls, log⟩⟩
    by_cases h1 : name = "" ∨ email = "" ∨ password = "" ∨ confirmPassword = ""
    · simp [Register.handleSubmitBegin, Machine.emit, World.emit, h1]
    · have h1c := h1
      simp only [not_or] at h1c
      obtain ⟨hn, he, hp, hc⟩ := h1c
      by_cases h2 : password = confirmPassword
      · subst h2
        by_cases h3 : JS.length password < 6
        · simp [Register.handleSubmitBegin, Register.setIsSubmitting, Machine.emit, World.emit,
            hn, he, hp, h3]
        · cases registerOutcome <;>
            simp [Register.handleSubmit, Register.handleSubmitBegin,
              Register.handleSubmitSettle, Register.setIsSubmitting, Machine.emit,
              World.emit, World.since, hn, he, hp, h3, Event.isToast, List.countP_cons]
      · simp [Register.handleSubmitBegin, Machine.emit, World.emit, hn, he, hp, hc, h2]

/-- C11, amended, at concrete runs: a registration form with mismatching passwords
shows one toast, and a form that passes the checks shows two. -/
theorem C11_toasts_per_run_witness :
    ((Register.handleSubmit (.ok .null)
        (Scenario.register "Ann" "a@b.com" "abc123" "abc124")).world.since
      (Scenario.register "Ann" "a@b.com" "abc123" "abc124").world.log.length).countP
        Event.isToast = 1 ∧
    ((Register.handleSubmit (.ok .null)
        (Scenario.register "Ann" "a@b.com" "abc123" "abc123")).world.since
      (Scenario.register "Ann" "a@b.com" "abc123" "abc123").world.log.length).countP
        Event.isToast = 2 :=
  ⟨(C11_toasts_per_run (.ok Scenario.payload) (Scenario.login "a@b.com" "secret1" false)
      (some Scenario.user) id (.ok ()) (Scenario.dialog "DELETE" false) (.ok .null)
      (Scenario.register "Ann" "a@b.com" "abc123" "abc124")).2.2.1 (by decide),
   ((C11_toasts_per_run (.ok Scenario.payload) (Scenario.login "a@b.com" "secret1" false)
      (some Scenario.user) id (.ok ()) (Scenario.dialog "DELETE" false) (.ok .null)
      (Scenario.register "Ann" "a@b.com" "abc123" "abc123")).2.2.2 (by decide)).1⟩

/-! ## Cancelling the deletion -/

/-- C12: with the dialog open and `isDeleting` false, a click on "Cancel" closes
the dialog and discards its state, so that opening the dialog again mounts it
with an empty text and `isDeleting` false (as does opening it from any closed
state); with `isDeleting` true the "Cancel" button is disabled, a click on it
changes nothing and the dialog stays open. -/
theorem C12_cancel_closes_and_discards (m : Machine SettingsState) (d : DialogState)
    (hd : m.state.dialog = some d) :
    (d.isDeleting = false →
      (Settings.cancelClick m).state.showDeleteDialog = false ∧
      (Settings.cancelClick m).state.dialog = none ∧
      (Settings.cancelClick m).state.settings = m.state.settings ∧
      (Settings.cancelClick m).world.localStorage = m.world.localStorage ∧
      (Settings.cancelClick m).world.log = m.world.log ++ [Event.setShowDeleteDialog false] ∧
      (Settings.openClick (Settings.cancelClick m)).state.dialog
        = some { confirmText := "", isDeleting := false }) ∧
    (∀ closed : Machine SettingsState, closed.state.dialog = none →
      (Settings.openClick closed).state.dialog
        = some { confirmText := "", isDeleting := false }) ∧
    (d.isDeleting = true →
      DeleteAccountDialog.cancelDisabled d = true ∧
      Settings.cancelClick m = m ∧
      (Settings.cancelClick m).state.showDeleteDialog = true ∧
      (Settings.cancelClick m).state.dialog = some d) := by
  rcases m with ⟨⟨settings, dialog⟩, w⟩
  simp only at hd
  subst hd
  refine ⟨?_, ?_, ?_⟩
  · intro h
    simp [Settings.cancelClick, Settings.onCancel, Settings.openClick,
      Settings.setShowDeleteDialog, DeleteAccountDialog.cancelDisabled,
      SettingsState.showDeleteDialog, DialogState.initial, World.emit, h]
  · intro closed hc
    simp [Settings.openClick, Settings.setShowDeleteDialog, DialogState.initial, hc]
  · intro h
    simp [Settings.cancelClick, DeleteAccountDialog.cancelDisabled,
      SettingsState.showDeleteDialog, h]

/-- C12 at concrete states: cancelling the open dialog with the text "DEL" and
opening it again gives an empty text; with `isDeleting` true a click on
"Cancel" changes nothing. -/
theorem C12_cancel_closes_and_discards_witness :
    (Settings.openClick (Settings.cancelClick (Scenario.settings "DEL" false))).state.dialog
      = some { confirmText := "", isDeleting := false } ∧
    (Settings.openClick Scenario.settingsClosed).state.dialog
      = some { confirmText := "", isDeleting := false } ∧
    Settings.cancelClick (Scenario.settings "DELETE" true) = Scenario.settings "DELETE" true :=
  ⟨((C12_cancel_closes_and_discards (Scenario.settings "DEL" false)
      { confirmText := "DEL", isDeleting := false } rfl).1 rfl).2.2.2.2.2,
   (C12_cancel_closes_and_discards (Scenario.settings "DEL" false)
      { confirmText := "DEL", isDeleting := false } rfl).2.1 Scenario.settingsClosed rfl,
   ((C12_cancel_closes_and_discards (Scenario.settings "DELETE" true)
      { confirmText := "DELETE", isDeleting := true } rfl).2.2 rfl).2.1⟩
